import Mathlib

/-!
Shallow embedding of the Madison-Book-Library front-end components.

Each React component is modelled as a state structure plus pure handler
functions. A handler takes the current local state and returns the new
state together with the list of externally observable events it emits
(network POSTs, toast notifications, parent callbacks), in emission order.
-/

namespace ChatBar

/-- A catalog entry of the context picker: `id` is the exact filename key
sent to the backend, `label` the display string. -/
structure ContextOption where
  id : String
  label : String
deriving DecidableEq, Repr

/-- The fixed 12-entry catalog `CONTEXT_OPTIONS` from the composer source. -/
def CONTEXT_OPTIONS : List ContextOption := [
  { id := "blackstone -- commentaries v1", label := "Blackstone — Commentaries on the Laws of England, Vol. 1" },
  { id := "blackstone -- commentaries v2", label := "Blackstone — Commentaries on the Laws of England, Vol. 2" },
  { id := "blackstone -- commentaries v3", label := "Blackstone — Commentaries on the Laws of England, Vol. 3" },
  { id := "blackstone -- commentaries v4", label := "Blackstone — Commentaries on the Laws of England, Vol. 4" },
  { id := "De Lolme -- The Constitution of England", label := "De Lolme — The Constitution of England" },
  { id := "Filmer -- The Anarchy of a Limited or Mixed Monarchy", label := "Filmer — The Anarchy of a Limited or Mixed Monarchy" },
  { id := "Harrington -- The Commonwealth of Oceana", label := "Harrington — The Commonwealth of Oceana" },
  { id := "Hunton -- A Treatise of Monarchy", label := "Hunton — A Treatise of Monarchy" },
  { id := "Locke -- Second Treatise of Government", label := "Locke — Second Treatise of Government" },
  { id := "Montesquieu -- spirit of laws", label := "Montesquieu — The Spirit of Laws" },
  { id := "Rousseau -- The Social Contract", label := "Rousseau — The Social Contract" },
  { id := "Vattel -- The Law of Nations", label := "Vattel — The Law of Nations" }]

/-- The catalog ids, in catalog order (`CONTEXT_OPTIONS.map(o => o.id)`). -/
def contextIds : List String := CONTEXT_OPTIONS.map (fun o => o.id)

/-- Initial value of the `selected` state:
`[CONTEXT_OPTIONS[0].id, CONTEXT_OPTIONS[1].id]`. -/
def initialSelected : List String :=
  [(CONTEXT_OPTIONS.get ⟨0, by decide⟩).id, (CONTEXT_OPTIONS.get ⟨1, by decide⟩).id]

/-- Local state of the `ChatBar` component: whether the dropdown panel is
open, and the currently selected context ids. -/
structure ChatBarState where
  panelOpen : Bool
  selected : List String
deriving DecidableEq, Repr

/-- Externally observable events of the composer: the only one relevant to
the selection mechanism is the `onContextChange(ids)` parent callback. -/
inductive ComposerEvent where
  | contextChange (ids : List String)
deriving DecidableEq, Repr

/-- `toggleOption`: flips membership of one id in the selection
(`prev.includes(id) ? prev.filter(l => l !== id) : [...prev, id]`). -/
def toggleOption (id : String) (prev : List String) : List String :=
  if id ∈ prev then prev.filter (fun l => l ≠ id) else prev ++ [id]

/-- `allSelected`: `selected.length === CONTEXT_OPTIONS.length`. -/
def allSelected (selected : List String) : Bool :=
  selected.length == CONTEXT_OPTIONS.length

/-- `toggleAll`: clear to empty if `allSelected`, otherwise select the whole
catalog (`allSelected ? [] : CONTEXT_OPTIONS.map(o => o.id)`). -/
def toggleAll (selected : List String) : List String :=
  if allSelected selected then [] else CONTEXT_OPTIONS.map (fun o => o.id)

/-- State-level toggle-one handler: updates `selected`, emits nothing. -/
def toggleOptionStep (id : String) (s : ChatBarState) : ChatBarState × List ComposerEvent :=
  ({ s with selected := toggleOption id s.selected }, [])

/-- State-level toggle-all handler: updates `selected`, emits nothing. -/
def toggleAllStep (s : ChatBarState) : ChatBarState × List ComposerEvent :=
  ({ s with selected := toggleAll s.selected }, [])

/-- `confirm`: calls `onContextChange(selected)` and closes the panel. -/
def confirm (s : ChatBarState) : ChatBarState × List ComposerEvent :=
  ({ s with panelOpen := false }, [ComposerEvent.contextChange s.selected])

/-- The Books-button click handler `setOpen(v => !v)`. -/
def toggleOpen (s : ChatBarState) : ChatBarState × List ComposerEvent :=
  ({ s with panelOpen := !s.panelOpen }, [])

/-- The document-level click handler: closes the panel when it is open and
the click target is outside the wrapper; otherwise does nothing. -/
def handleClick (insideWrapper : Bool) (s : ChatBarState) : ChatBarState × List ComposerEvent :=
  if s.panelOpen && !insideWrapper then ({ s with panelOpen := false }, []) else (s, [])

/-- The document-level keydown handler: `if (e.key === "Escape") setOpen(false)`. -/
def handleKey (key : String) (s : ChatBarState) : ChatBarState × List ComposerEvent :=
  if key = "Escape" then ({ s with panelOpen := false }, []) else (s, [])

/-- A keyboard event as seen by the textarea `onKeyDown` handler. -/
structure KeyEvent where
  key : String
  shiftKey : Bool

/-- The textarea `onKeyDown` handler, as (preventDefault?, number of `onSend`
calls): on Enter without Shift it calls `e.preventDefault()` and `onSend()`;
otherwise it does nothing, so the default action (newline insertion for
Enter) proceeds. -/
def onKeyDownTextarea (e : KeyEvent) : Bool × Nat :=
  if e.key = "Enter" && !e.shiftKey then (true, 1) else (false, 0)

/-- Operations a user can perform inside the open selection panel. -/
inductive ComposerOp where
  | toggleOne (id : String)
  | toggleAllOp
  | confirmOp
deriving DecidableEq, Repr

/-- Dispatch one panel operation. -/
def composerStep : ComposerOp → ChatBarState → ChatBarState × List ComposerEvent
  | ComposerOp.toggleOne id, s => toggleOptionStep id s
  | ComposerOp.toggleAllOp, s => toggleAllStep s
  | ComposerOp.confirmOp, s => confirm s

/-- Run a sequence of panel operations, concatenating emitted events. -/
def runComposer : List ComposerOp → ChatBarState → ChatBarState × List ComposerEvent
  | [], s => (s, [])
  | op :: rest, s =>
    let r := composerStep op s
    let r2 := runComposer rest r.1
    (r2.1, r.2 ++ r2.2)

/-- Selection states reachable from the initial state by the selection
operations (toggle-one on catalog ids, toggle-all; confirm and panel
open/close do not touch `selected`). -/
inductive ReachableSel : List String → Prop where
  | init : ReachableSel initialSelected
  | toggleOne (id : String) (hid : id ∈ contextIds) {s : List String} :
      ReachableSel s → ReachableSel (toggleOption id s)
  | toggleAllR {s : List String} :
      ReachableSel s → ReachableSel (toggleAll s)

end ChatBar

namespace ChatMessage

/-- A thumbs direction. -/
inductive ThumbDir where
  | up
  | down
deriving DecidableEq, Repr

/-- The opposite thumbs direction. -/
def ThumbDir.flip : ThumbDir → ThumbDir
  | ThumbDir.up => ThumbDir.down
  | ThumbDir.down => ThumbDir.up

/-- A message role. -/
inductive Role where
  | user
  | assistant
deriving DecidableEq, Repr

/-- The message payload `{ id, role, content }`. -/
structure Message where
  id : String
  role : Role
  content : String
deriving DecidableEq, Repr

/-- Local state of `ChatMessage` relevant to the thumbs actions:
`thumbsState` and `showPrompt`. -/
structure MessageState where
  thumbsState : Option ThumbDir
  showPrompt : Bool
deriving DecidableEq, Repr

/-- Events `ChatMessage` posts to `/api/feedback` from the thumbs handlers:
`remove` is `{action:"remove", type, messageId}`, `fresh` is
`{action:"up"|"down", messageId, message}`. -/
inductive FeedbackEvent where
  | remove (thumbType : ThumbDir) (messageId : String)
  | fresh (action : ThumbDir) (messageId : String) (message : String)
deriving DecidableEq, Repr

/-- `handleThumbsUp`: toggle-off when already up (clear state, hide prompt,
post a remove event), otherwise select up (show prompt, post an up event). -/
def handleThumbsUp (msg : Message) (s : MessageState) : MessageState × List FeedbackEvent :=
  if s.thumbsState = some ThumbDir.up then
    ({ thumbsState := none, showPrompt := false },
      [FeedbackEvent.remove ThumbDir.up msg.id])
  else
    ({ thumbsState := some ThumbDir.up, showPrompt := true },
      [FeedbackEvent.fresh ThumbDir.up msg.id msg.content])

/-- `handleThumbsDown`: toggle-off when already down, otherwise select down. -/
def handleThumbsDown (msg : Message) (s : MessageState) : MessageState × List FeedbackEvent :=
  if s.thumbsState = some ThumbDir.down then
    ({ thumbsState := none, showPrompt := false },
      [FeedbackEvent.remove ThumbDir.down msg.id])
  else
    ({ thumbsState := some ThumbDir.down, showPrompt := true },
      [FeedbackEvent.fresh ThumbDir.down msg.id msg.content])

/-- Dispatch a thumbs action by direction. -/
def handleThumb : ThumbDir → Message → MessageState → MessageState × List FeedbackEvent
  | ThumbDir.up, msg, s => handleThumbsUp msg s
  | ThumbDir.down, msg, s => handleThumbsDown msg s

end ChatMessage

namespace FeedbackModal

/-- Local state of `FeedbackModal`: two committed star ratings, two hover
states, and the free-text field. -/
structure ModalState where
  helpfulnessRating : Nat
  hoveredHelpfulStar : Nat
  citationRating : Nat
  hoveredCitationStar : Nat
  feedbackText : String
deriving DecidableEq, Repr

/-- Externally observable events of the modal: the extended-feedback POST,
the two toast notifications, and the `onClose()` parent callback. -/
inductive ModalEvent where
  | postExtended (helpfulnessRating citationRating : Nat) (feedbackText : String)
      (conversation : List (String × String))
  | toastError (text : String)
  | toastSuccess (text : String)
  | closeModal
deriving DecidableEq, Repr

/-- JS `String.prototype.trim`: strip leading and trailing whitespace
(executable over the character list; the built-in `String.trim` does not
reduce in the kernel). -/
def trimJS (s : String) : String :=
  String.mk (((s.data.dropWhile Char.isWhitespace).reverse.dropWhile Char.isWhitespace).reverse)

/-- The submit Button's `disabled` prop:
`helpfulnessRating === 0 && citationRating === 0 && !feedbackText.trim()`. -/
def submitDisabled (s : ModalState) : Bool :=
  s.helpfulnessRating == 0 && s.citationRating == 0 && trimJS s.feedbackText == ""

/-- `handleClose`: reset all five local fields, then call `onClose()`. -/
def handleClose (_s : ModalState) : ModalState × List ModalEvent :=
  ({ helpfulnessRating := 0, hoveredHelpfulStar := 0, citationRating := 0,
     hoveredCitationStar := 0, feedbackText := "" }, [ModalEvent.closeModal])

/-- `handleSubmit`: if both ratings are 0 and the trimmed text is empty,
show an error toast and return early (no POST, no state change, no close);
otherwise POST the extended feedback, toast success, and `handleClose`. -/
def handleSubmit (conversation : List (String × String)) (s : ModalState) :
    ModalState × List ModalEvent :=
  if s.helpfulnessRating = 0 ∧ s.citationRating = 0 ∧ trimJS s.feedbackText = "" then
    (s, [ModalEvent.toastError "Please provide at least one rating or feedback"])
  else
    let c := handleClose s
    (c.1, ModalEvent.postExtended s.helpfulnessRating s.citationRating s.feedbackText conversation
      :: ModalEvent.toastSuccess "Thank you for your feedback!" :: c.2)

end FeedbackModal

namespace Onboarding

/-- Local state of the `Onboarding` wizard. -/
structure OnboardingState where
  currentStep : Nat
  consentGiven : Bool
  occupation : String
  ageRange : String
deriving DecidableEq, Repr

/-- Externally observable events of the wizard: the two `/api/onboarding`
POSTs and the `onComplete()` parent callback. -/
inductive OnboardingEvent where
  | postConsent
  | postDemographics (occupation ageRange : String)
  | complete
deriving DecidableEq, Repr

/-- `handleConsentContinue`: only when `consentGiven` holds, POST the consent
event and advance to step 2; otherwise do nothing at all. -/
def handleConsentContinue (s : OnboardingState) : OnboardingState × List OnboardingEvent :=
  if s.consentGiven then
    ({ s with currentStep := 2 }, [OnboardingEvent.postConsent])
  else
    (s, [])

/-- `handleDemographicContinue`: unconditionally POST the demographics event
and then call `onComplete()` — there is no non-empty check in the handler. -/
def handleDemographicContinue (s : OnboardingState) : OnboardingState × List OnboardingEvent :=
  (s, [OnboardingEvent.postDemographics s.occupation s.ageRange, OnboardingEvent.complete])

/-- The "Continue to Library" Button's `disabled` prop: `!occupation || !ageRange`
(a JS string is falsy exactly when it is empty). -/
def demographicContinueDisabled (s : OnboardingState) : Bool :=
  s.occupation == "" || s.ageRange == ""

/-- The consent-step Continue Button's `disabled` prop: `!consentGiven`. -/
def consentContinueDisabled (s : OnboardingState) : Bool :=
  !s.consentGiven

end Onboarding
namespace ChatBar

lemma contextIds_nodup : contextIds.Nodup := by decide

lemma toggleOption_nodup (id : String) {s : List String} (h : s.Nodup) :
    (toggleOption id s).Nodup := by
  unfold toggleOption
  split
  · exact h.filter _
  · rename_i hid
    simp [List.nodup_append, h, hid]

lemma toggleOption_subset {id : String} (hid : id ∈ contextIds) {s : List String}
    (h : ∀ x ∈ s, x ∈ contextIds) : ∀ x ∈ toggleOption id s, x ∈ contextIds := by
  intro x hx
  unfold toggleOption at hx
  split at hx
  · exact h x (List.mem_of_mem_filter hx)
  · rcases List.mem_append.mp hx with h1 | h1
    · exact h x h1
    · simp only [List.mem_singleton] at h1
      exact h1 ▸ hid

lemma toggleAll_cases (s : List String) :
    toggleAll s = [] ∨ toggleAll s = contextIds := by
  unfold toggleAll
  split
  · exact Or.inl rfl
  · exact Or.inr rfl

/-- Every reachable selection is a duplicate-free subset of the catalog ids. -/
lemma reachable_invariant {s : List String} (h : ReachableSel s) :
    s.Nodup ∧ ∀ x ∈ s, x ∈ contextIds := by
  induction h with
  | init => exact ⟨by decide, by decide⟩
  | toggleOne id hid _ ih => exact ⟨toggleOption_nodup id ih.1, toggleOption_subset hid ih.2⟩
  | toggleAllR _ _ =>
    rcases toggleAll_cases _ with he | he <;> rw [he]
    · exact ⟨List.nodup_nil, by simp⟩
    · exact ⟨contextIds_nodup, fun x hx => hx⟩

lemma filter_ne_of_not_mem {s : List String} {id : String} (h : id ∉ s) :
    s.filter (fun l => l ≠ id) = s :=
  List.filter_eq_self.mpr fun x hx =>
    decide_eq_true (show x ≠ id from fun heq => h (heq ▸ hx))

/-- Double toggle-one is a permutation of the original duplicate-free list. -/
lemma toggleOption_toggleOption_perm {s : List String} (hnd : s.Nodup) (id : String) :
    (toggleOption id (toggleOption id s)).Perm s := by
  by_cases hmem : id ∈ s
  · have h1 : toggleOption id s = s.filter (fun l => l ≠ id) := by
      simp [toggleOption, hmem]
    have hnotmem : id ∉ s.filter (fun l => l ≠ id) := by
      simp [List.mem_filter]
    have h2 : toggleOption id (toggleOption id s) = s.filter (fun l => l ≠ id) ++ [id] := by
      rw [h1, toggleOption, if_neg hnotmem]
    have p1 : (s.filter (fun l => l ≠ id) ++ [id]).Perm (id :: s.filter (fun l => l ≠ id)) :=
      List.perm_append_singleton _ _
    have p2 : id :: s.filter (fun l => l ≠ id) = id :: s.erase id := by
      rw [List.Nodup.erase_eq_filter hnd]
      congr 1
      apply List.filter_congr
      intro x _
      by_cases hx : x = id <;> simp [hx]
    have p3 : (id :: s.erase id).Perm s := (List.perm_cons_erase hmem).symm
    rw [h2]
    exact p1.trans (p2 ▸ p3)
  · have h1 : toggleOption id s = s ++ [id] := by simp [toggleOption, hmem]
    have h2 : toggleOption id (s ++ [id]) = s := by
      have hin : id ∈ s ++ [id] := by simp
      rw [toggleOption, if_pos hin, List.filter_append, filter_ne_of_not_mem hmem]
      simp
    rw [h1, h2]

/-- Events of a run of panel operations that contains no confirm are empty. -/
lemma runComposer_no_confirm (ops : List ComposerOp) (s : ChatBarState)
    (hops : ∀ op ∈ ops, op ≠ ComposerOp.confirmOp) :
    (runComposer ops s).2 = [] := by
  induction ops generalizing s with
  | nil => rfl
  | cons op rest ih =>
    have hop := hops op (List.mem_cons_self op rest)
    have hrest : ∀ o ∈ rest, o ≠ ComposerOp.confirmOp :=
      fun o ho => hops o (List.mem_cons_of_mem op ho)
    cases op with
    | toggleOne id => simpa [runComposer, composerStep, toggleOptionStep] using ih _ hrest
    | toggleAllOp => simpa [runComposer, composerStep, toggleAllStep] using ih _ hrest
    | confirmOp => exact absurd rfl hop

end ChatBar

namespace ChatBar

/-- Claim C1 (counterexample): toggle-all is NOT idempotent-inverting on
every selection state. From the default two-item selection, the first
toggle-all selects the full catalog (2 ≠ 12), and the second clears it to
empty — not back to the original non-empty selection. -/
theorem C1_toggleAll_counterexample :
    toggleAll (toggleAll initialSelected) = [] ∧ initialSelected ≠ [] := by decide

/-- Claim C1 (amended): for a reachable selection, toggle-all twice yields
the full catalog when the selection was full and the empty selection
otherwise; hence two invocations return to the original selection (as a
set) exactly when the selection is empty or full. -/
theorem C1_toggleAll_twice_characterization (s : List String) (h : ReachableSel s) :
    toggleAll (toggleAll s) = (if allSelected s then contextIds else []) ∧
    ((∀ x, x ∈ toggleAll (toggleAll s) ↔ x ∈ s) ↔
      (s = [] ∨ allSelected s = true)) := by
  have hfirst : toggleAll (toggleAll s) = (if allSelected s then contextIds else []) := by
    cases hall : allSelected s with
    | true =>
      have h1 : toggleAll s = [] := by simp [toggleAll, hall]
      have h2 : toggleAll ([] : List String) = contextIds := by decide
      simp [h1, h2, hall]
    | false =>
      have h1 : toggleAll s = contextIds := by simp [toggleAll, hall, contextIds]
      have h2 : toggleAll contextIds = [] := by decide
      simp [h1, h2, hall]
  refine ⟨hfirst, ?_, ?_⟩
  · intro hiff
    cases hall : allSelected s with
    | true => exact Or.inr rfl
    | false =>
      left
      have hz : toggleAll (toggleAll s) = [] := by rw [hfirst]; simp [hall]
      apply List.eq_nil_iff_forall_not_mem.mpr
      intro x hx
      have hmem := (hiff x).mpr hx
      rw [hz] at hmem
      exact List.not_mem_nil x hmem
  · rintro (rfl | hall)
    · intro x
      have hz : toggleAll (toggleAll ([] : List String)) = [] := by decide
      rw [hz]
    · have hinv := reachable_invariant h
      have hlen : s.length = CONTEXT_OPTIONS.length := by simpa [allSelected] using hall
      have hperm : s.Perm contextIds := by
        apply List.Subperm.perm_of_length_le
        · exact hinv.1.subperm fun x hx => hinv.2 x hx
        · simp [contextIds, hlen]
      have hC : toggleAll (toggleAll s) = contextIds := by rw [hfirst]; simp [hall]
      intro x
      rw [hC]
      exact hperm.mem_iff.symm

/-- Witness for C1 (amended) at the initial (reachable) selection. -/
theorem C1_toggleAll_twice_characterization_witness :
    toggleAll (toggleAll initialSelected) =
      (if allSelected initialSelected then contextIds else []) ∧
    ((∀ x, x ∈ toggleAll (toggleAll initialSelected) ↔ x ∈ initialSelected) ↔
      (initialSelected = [] ∨ allSelected initialSelected = true)) :=
  C1_toggleAll_twice_characterization initialSelected ReachableSel.init

/-- Claim C5: confirm emits exactly one `onContextChange` carrying the
current selection and closes the panel, while any run of toggle-one /
toggle-all operations emits no event at all. -/
theorem C5_confirm_propagates_once (s : ChatBarState) (ops : List ComposerOp)
    (hops : ∀ op ∈ ops, op ≠ ComposerOp.confirmOp) :
    confirm s = ({ s with panelOpen := false }, [ComposerEvent.contextChange s.selected]) ∧
    (runComposer ops s).2 = [] :=
  ⟨rfl, runComposer_no_confirm ops s hops⟩

/-- Witness for C5: a concrete toggle-only run emits nothing, and confirm
emits the one `contextChange`. -/
theorem C5_confirm_propagates_once_witness :
    confirm { panelOpen := true, selected := initialSelected } =
      ({ panelOpen := false, selected := initialSelected },
        [ComposerEvent.contextChange initialSelected]) ∧
    (runComposer [ComposerOp.toggleOne "Rousseau -- The Social Contract", ComposerOp.toggleAllOp]
      { panelOpen := true, selected := initialSelected }).2 = [] :=
  C5_confirm_propagates_once _ _ (by decide)

/-- Claim C6: outside-click and Escape close the panel without emitting any
event and without touching `selected`; reopening (Books button) also leaves
`selected` unchanged, so the same unconfirmed selection is shown. -/
theorem C6_close_discards_nothing (s : ChatBarState) :
    ((handleClick false s).1.selected = s.selected ∧ (handleClick false s).2 = [] ∧
      (s.panelOpen = true → (handleClick false s).1.panelOpen = false)) ∧
    ((handleKey "Escape" s).1.selected = s.selected ∧ (handleKey "Escape" s).2 = [] ∧
      (handleKey "Escape" s).1.panelOpen = false) ∧
    (toggleOpen (handleKey "Escape" s).1).1.selected = s.selected := by
  cases s with
  | mk po sel => cases po <;> simp [handleClick, handleKey, toggleOpen]

/-- Witness for C6 at a concrete open panel state. -/
theorem C6_close_discards_nothing_witness :
    (handleClick false { panelOpen := true, selected := initialSelected }).1.panelOpen = false :=
  (C6_close_discards_nothing { panelOpen := true, selected := initialSelected }).1.2.2 rfl

/-- Claim C7: on any reachable selection, toggling the same id twice gives
back a permutation of the original list — the selection set is unchanged. -/
theorem C7_toggleOne_involutive (s : List String) (id : String) (h : ReachableSel s) :
    (toggleOption id (toggleOption id s)).Perm s ∧
    ∀ x, x ∈ toggleOption id (toggleOption id s) ↔ x ∈ s := by
  have hp := toggleOption_toggleOption_perm (reachable_invariant h).1 id
  exact ⟨hp, fun x => hp.mem_iff⟩

/-- Witness for C7 at the initial selection and a concrete catalog id. -/
theorem C7_toggleOne_involutive_witness :
    (toggleOption "Locke -- Second Treatise of Government"
      (toggleOption "Locke -- Second Treatise of Government" initialSelected)).Perm
      initialSelected :=
  (C7_toggleOne_involutive initialSelected "Locke -- Second Treatise of Government"
    ReachableSel.init).1

/-- Claim C8: the selection starts as the first two catalog ids, and every
selection reachable by toggle-one (on catalog ids) and toggle-all is a
duplicate-free subset of the 12 catalog ids. -/
theorem C8_selection_invariant :
    initialSelected = contextIds.take 2 ∧
    ∀ s, ReachableSel s → s.Nodup ∧ ∀ x ∈ s, x ∈ contextIds :=
  ⟨by decide, fun _ h => reachable_invariant h⟩

/-- Witness for C8 at the initial selection. -/
theorem C8_selection_invariant_witness :
    initialSelected.Nodup ∧ ∀ x ∈ initialSelected, x ∈ contextIds :=
  C8_selection_invariant.2 initialSelected ReachableSel.init

/-- Claim C9: Enter without Shift suppresses the default newline and calls
`onSend` exactly once; Shift+Enter calls `onSend` zero times and leaves the
default newline insertion to proceed. -/
theorem C9_enter_sends :
    onKeyDownTextarea { key := "Enter", shiftKey := false } = (true, 1) ∧
    onKeyDownTextarea { key := "Enter", shiftKey := true } = (false, 0) := by decide

end ChatBar

namespace FeedbackModal

/-- Claim C2: the submit control is disabled exactly when both ratings are 0
and the trimmed text is empty, and invoking submit in that state only shows
the error toast: the state is returned unchanged, no extended-feedback POST
is emitted, and no `onClose` is emitted. -/
theorem C2_submit_gate (s : ModalState) (conversation : List (String × String)) :
    (submitDisabled s = true ↔
      (s.helpfulnessRating = 0 ∧ s.citationRating = 0 ∧ trimJS s.feedbackText = "")) ∧
    (submitDisabled s = true →
      handleSubmit conversation s =
        (s, [ModalEvent.toastError "Please provide at least one rating or feedback"])) := by
  constructor
  · simp [submitDisabled, and_assoc]
  · intro hd
    have hc : s.helpfulnessRating = 0 ∧ s.citationRating = 0 ∧ trimJS s.feedbackText = "" := by
      simpa [submitDisabled, and_assoc] using hd
    unfold handleSubmit
    rw [if_pos hc]

/-- Witness for C2 at the freshly opened modal state. -/
theorem C2_submit_gate_witness :
    handleSubmit [("user", "hi")]
      { helpfulnessRating := 0, hoveredHelpfulStar := 0, citationRating := 0,
        hoveredCitationStar := 0, feedbackText := "" } =
      ({ helpfulnessRating := 0, hoveredHelpfulStar := 0, citationRating := 0,
         hoveredCitationStar := 0, feedbackText := "" },
        [ModalEvent.toastError "Please provide at least one rating or feedback"]) :=
  (C2_submit_gate _ [("user", "hi")]).2 (by decide)

end FeedbackModal

namespace ChatMessage

/-- Claim C3: when the same thumb direction is already active, the thumb
handler clears `thumbsState` to `none`, hides the inline prompt, and emits
exactly one remove event carrying the message id; hence select-then-reselect
of the same direction is a round trip back to `none`. -/
theorem C3_thumb_toggle_off (msg : Message) (d : ThumbDir) (s : MessageState)
    (h : s.thumbsState = some d) :
    handleThumb d msg s =
      ({ thumbsState := none, showPrompt := false }, [FeedbackEvent.remove d msg.id]) ∧
    ∀ t : MessageState, t.thumbsState ≠ some d →
      (handleThumb d msg (handleThumb d msg t).1).1.thumbsState = none ∧
      (handleThumb d msg (handleThumb d msg t).1).1.showPrompt = false := by
  cases d with
  | up =>
    refine ⟨by simp [handleThumb, handleThumbsUp, h], ?_⟩
    intro t ht
    simp [handleThumb, handleThumbsUp, ht]
  | down =>
    refine ⟨by simp [handleThumb, handleThumbsDown, h], ?_⟩
    intro t ht
    simp [handleThumb, handleThumbsDown, ht]

/-- Witness for C3 at a concrete message with thumbs-up active. -/
theorem C3_thumb_toggle_off_witness :
    handleThumb ThumbDir.up { id := "m1", role := Role.assistant, content := "hello" }
      { thumbsState := some ThumbDir.up, showPrompt := true } =
      ({ thumbsState := none, showPrompt := false }, [FeedbackEvent.remove ThumbDir.up "m1"]) :=
  (C3_thumb_toggle_off { id := "m1", role := Role.assistant, content := "hello" }
    ThumbDir.up { thumbsState := some ThumbDir.up, showPrompt := true } rfl).1

/-- Claim C4: when the opposite thumb direction is active, invoking a thumb
overwrites `thumbsState` with the new direction and emits exactly one fresh
up/down event carrying the message id and content — no remove event for the
previously active choice. -/
theorem C4_thumb_switch (msg : Message) (d : ThumbDir) (s : MessageState)
    (h : s.thumbsState = some d.flip) :
    handleThumb d msg s =
      ({ thumbsState := some d, showPrompt := true },
        [FeedbackEvent.fresh d msg.id msg.content]) := by
  cases d with
  | up =>
    have hne : s.thumbsState ≠ some ThumbDir.up := by rw [h]; simp [ThumbDir.flip]
    simp [handleThumb, handleThumbsUp, hne]
  | down =>
    have hne : s.thumbsState ≠ some ThumbDir.down := by rw [h]; simp [ThumbDir.flip]
    simp [handleThumb, handleThumbsDown, hne]

/-- Witness for C4: switching from an active thumbs-up directly to
thumbs-down. -/
theorem C4_thumb_switch_witness :
    handleThumb ThumbDir.down { id := "m1", role := Role.assistant, content := "hello" }
      { thumbsState := some ThumbDir.up, showPrompt := true } =
      ({ thumbsState := some ThumbDir.down, showPrompt := true },
        [FeedbackEvent.fresh ThumbDir.down "m1" "hello"]) :=
  C4_thumb_switch { id := "m1", role := Role.assistant, content := "hello" }
    ThumbDir.down { thumbsState := some ThumbDir.up, showPrompt := true } rfl

end ChatMessage

namespace Onboarding

/-- Claim C10: for every occupation/ageRange value, including empty strings,
the demographics continue handler emits the demographics POST and then
`onComplete`, with no internal non-empty check — that gate exists only in
the Button's `disabled` prop; by contrast the consent handler is a no-op
when consent is not given. -/
theorem C10_demographics_unconditional (s : OnboardingState) :
    handleDemographicContinue s =
      (s, [OnboardingEvent.postDemographics s.occupation s.ageRange,
           OnboardingEvent.complete]) ∧
    (demographicContinueDisabled s = true ↔ (s.occupation = "" ∨ s.ageRange = "")) ∧
    (s.consentGiven = false → handleConsentContinue s = (s, [])) := by
  refine ⟨rfl, by simp [demographicContinueDisabled], ?_⟩
  intro h
  simp [handleConsentContinue, h]

/-- Witness for C10 at the empty-fields, no-consent state. -/
theorem C10_demographics_unconditional_witness :
    handleDemographicContinue
      { currentStep := 2, consentGiven := false, occupation := "", ageRange := "" } =
      ({ currentStep := 2, consentGiven := false, occupation := "", ageRange := "" },
        [OnboardingEvent.postDemographics "" "", OnboardingEvent.complete]) ∧
    handleConsentContinue
      { currentStep := 2, consentGiven := false, occupation := "", ageRange := "" } =
      ({ currentStep := 2, consentGiven := false, occupation := "", ageRange := "" }, []) :=
  ⟨(C10_demographics_unconditional
      { currentStep := 2, consentGiven := false, occupation := "", ageRange := "" }).1,
   (C10_demographics_unconditional
      { currentStep := 2, consentGiven := false, occupation := "", ageRange := "" }).2.2 rfl⟩

end Onboarding
